import Mathlib

/-!
Shallow embedding of `moveit_core/dynamics_solver/src/dynamics_solver.cpp`
(namespace `dynamics_solver`, class `DynamicsSolver`).

Doubles are modelled as rationals (`ℚ`). The three external capabilities the
solver consumes (the KDL tree/chain builder, the recursive inverse-dynamics
engine `KDL::ChainIdSolver_RNE`, and the robot-state frame-transform provider)
are not part of this repository's sources; they are modelled as abstract
function-valued fields of `RobotModel`, exactly as the spec describes them
(section 6, "Consumed" interfaces).

The one mutable piece of solver state, the cached `moveit::core::RobotState`
(`state_`), is modelled by explicit state passing: each query method takes an
`RState` and returns the (possibly updated) `RState` alongside its result.
-/

namespace DynSolver

/-- 3-vector of rationals, modelling `geometry_msgs::msg::Vector3` /
`Eigen::Vector3d` components. -/
structure Vector3 where
  x : ℚ
  y : ℚ
  z : ℚ
deriving DecidableEq, Repr

/-- A 6-component wrench (`geometry_msgs::msg::Wrench`): force and torque. -/
structure Wrench where
  force : Vector3
  torque : Vector3
deriving DecidableEq, Repr

/-- The zero wrench: default-constructed `geometry_msgs::msg::Wrench`. -/
def zeroWrench : Wrench := ⟨⟨0, 0, 0⟩, ⟨0, 0, 0⟩⟩

/-- A 3×3 matrix of rationals: the linear (rotational) part of an
`Eigen::Isometry3d`. -/
structure Mat3 where
  m00 : ℚ
  m01 : ℚ
  m02 : ℚ
  m10 : ℚ
  m11 : ℚ
  m12 : ℚ
  m20 : ℚ
  m21 : ℚ
  m22 : ℚ
deriving DecidableEq, Repr

/-- Matrix applied to a vector. -/
def applyMat (m : Mat3) (v : Vector3) : Vector3 :=
  ⟨m.m00 * v.x + m.m01 * v.y + m.m02 * v.z,
   m.m10 * v.x + m.m11 * v.y + m.m12 * v.z,
   m.m20 * v.x + m.m21 * v.y + m.m22 * v.z⟩

/-- Matrix product. -/
def matMul (a b : Mat3) : Mat3 :=
  ⟨a.m00 * b.m00 + a.m01 * b.m10 + a.m02 * b.m20,
   a.m00 * b.m01 + a.m01 * b.m11 + a.m02 * b.m21,
   a.m00 * b.m02 + a.m01 * b.m12 + a.m02 * b.m22,
   a.m10 * b.m00 + a.m11 * b.m10 + a.m12 * b.m20,
   a.m10 * b.m01 + a.m11 * b.m11 + a.m12 * b.m21,
   a.m10 * b.m02 + a.m11 * b.m12 + a.m12 * b.m22,
   a.m20 * b.m00 + a.m21 * b.m10 + a.m22 * b.m20,
   a.m20 * b.m01 + a.m21 * b.m11 + a.m22 * b.m21,
   a.m20 * b.m02 + a.m21 * b.m12 + a.m22 * b.m22⟩

/-- Matrix transpose. -/
def matTranspose (m : Mat3) : Mat3 :=
  ⟨m.m00, m.m10, m.m20, m.m01, m.m11, m.m21, m.m02, m.m12, m.m22⟩

/-- Identity matrix. -/
def idMat : Mat3 := ⟨1, 0, 0, 0, 1, 0, 0, 0, 1⟩

/-- Componentwise vector sum. -/
def vecAdd (a b : Vector3) : Vector3 := ⟨a.x + b.x, a.y + b.y, a.z + b.z⟩

/-- Componentwise vector negation. -/
def vecNeg (a : Vector3) : Vector3 := ⟨-a.x, -a.y, -a.z⟩

/-- A rigid transform (`Eigen::Isometry3d`): rotational part plus
translation. -/
structure Isometry3 where
  linear : Mat3
  translation : Vector3
deriving DecidableEq, Repr

/-- Inverse of an isometry, computed the way `Eigen::Isometry3d::inverse()`
does for the isometry mode: transpose the linear part, negate-and-rotate the
translation. -/
def isoInverse (t : Isometry3) : Isometry3 :=
  ⟨matTranspose t.linear, vecNeg (applyMat (matTranspose t.linear) t.translation)⟩

/-- Composition of isometries (`operator*` on `Eigen::Isometry3d`). -/
def isoMul (a b : Isometry3) : Isometry3 :=
  ⟨matMul a.linear b.linear, vecAdd (applyMat a.linear b.translation) a.translation⟩

/-- Identity isometry. -/
def idIso : Isometry3 := ⟨idMat, ⟨0, 0, 0⟩⟩

/-- The file-local helper `transformVector` (dynamics_solver.cpp lines 58-72):
applies only `transform.linear()` to the vector, discarding the translation. -/
def transformVector (t : Isometry3) (v : Vector3) : Vector3 :=
  applyMat t.linear v

/-- The KDL chain description produced by `tree.getChain`: only its two
counters are read by the solver (`getNrOfJoints`, `getNrOfSegments`). -/
structure KDLChain where
  nrOfJoints : Nat
  nrOfSegments : Nat
deriving DecidableEq, Repr

/-- The external recursive inverse-dynamics engine
(`KDL::ChainIdSolver_RNE::CartToJnt`): from angles, velocities,
accelerations and per-segment wrenches it returns an integer status
(negative means failure) together with the computed joint-torque array,
modelled as a function from the joint index. -/
def IdEngine : Type :=
  List ℚ → List ℚ → List ℚ → List Wrench → Int × (Nat → ℚ)

/-- A joint model: the solver reads only `getParentLinkModel()->getName()`
of the root joint, `none` when there is no parent link. -/
structure JointModel where
  parentLinkModel : Option String
deriving DecidableEq

/-- A joint model group, with exactly the observations the constructor makes:
`isChain()`, `getMimicJointModels()`, `getJointRoots()`, `getLinkModelNames()`
and `getJointModelNames()`. -/
structure JointModelGroup where
  isChain : Bool
  mimicJointModels : List String
  jointRoots : List JointModel
  linkModelNames : List String
  jointModelNames : List String
deriving DecidableEq

/-- The robot model together with the external capabilities consumed by the
solver. `getJointModelGroup` and `urdfJoint` model the robot-model lookups;
`treeFromUrdf`, `getChain` and `mkEngine` model the KDL tree builder, chain
extraction and `KDL::ChainIdSolver_RNE` construction; `vecNorm` models
`KDL::Vector::Norm` (the Euclidean norm, external to this repository);
`frameTransform` models `RobotState::getFrameTransform` as a function of the
currently set joint-group positions and a link name. -/
structure RobotModel where
  getJointModelGroup : String → Option JointModelGroup
  urdfJoint : String → Option (Option ℚ)
  treeFromUrdf : Bool
  getChain : String → String → Option KDLChain
  vecNorm : Vector3 → ℚ
  mkEngine : KDLChain → Vector3 → IdEngine
  frameTransform : List ℚ → String → Isometry3

/-- The mutable cached robot state (`state_`): the joint-group positions last
written by `setJointGroupPositions`. -/
structure RState where
  positions : List ℚ
deriving DecidableEq, Repr

/-- The `DynamicsSolver` instance after construction. `jointModelGroup = none`
is the permanent-invalid marker (`joint_model_group_ == nullptr`). -/
structure DynamicsSolver where
  jointModelGroup : Option JointModelGroup
  baseName : String
  tipName : String
  numJoints : Nat
  numSegments : Nat
  maxTorques : List ℚ
  gravity : ℚ
  engine : IdEngine
  frameTransform : List ℚ → String → Isometry3

/-- The permanently invalid solver: every constructor failure path sets
`joint_model_group_ = nullptr` and returns before any member below is
written, so the members keep their default-constructed values (in
particular `max_torques_` stays empty). -/
def invalidSolver : DynamicsSolver where
  jointModelGroup := none
  baseName := ""
  tipName := ""
  numJoints := 0
  numSegments := 0
  maxTorques := []
  gravity := 0
  engine := fun _ _ _ _ => (-1, fun _ => 0)
  frameTransform := fun _ _ => idIso

/-- The per-joint torque limit read from the URDF joint
(dynamics_solver.cpp lines 135-143): the declared effort when the joint
exists and has limits, `0.0` otherwise. -/
def effortOr0 (model : RobotModel) (jointName : String) : ℚ :=
  match model.urdfJoint jointName with
  | some (some effort) => effort
  | _ => 0

/-- The constructor `DynamicsSolver::DynamicsSolver` (lines 75-152).
Failure paths in source order: unknown group, group not a chain, group has a
mimic joint, root joint without parent link, tree construction failure,
chain extraction failure. The C++ indexes `getJointRoots()[0]`
unconditionally (a validated chain group always has exactly one root);
an empty root list is modelled like the missing-parent-link failure via
`head?.bind`. -/
def constructSolver (model : RobotModel) (groupName : String)
    (gravityVector : Vector3) : DynamicsSolver :=
  match model.getJointModelGroup groupName with
  | none => invalidSolver
  | some g =>
    if g.isChain = false then invalidSolver
    else if g.mimicJointModels.isEmpty = false then invalidSolver
    else
      match (g.jointRoots.head?).bind JointModel.parentLinkModel with
      | none => invalidSolver
      | some baseName =>
        if model.treeFromUrdf = false then invalidSolver
        else
          match model.getChain baseName (g.linkModelNames.getLastD "") with
          | none => invalidSolver
          | some chain =>
            { jointModelGroup := some g
              baseName := baseName
              tipName := g.linkModelNames.getLastD ""
              numJoints := chain.nrOfJoints
              numSegments := chain.nrOfSegments
              maxTorques := g.jointModelNames.map (effortOr0 model)
              gravity := model.vecNorm gravityVector
              engine := model.mkEngine chain gravityVector
              frameTransform := model.frameTransform }

/-- The accessor `DynamicsSolver::getMaxTorques` (lines 326-329). -/
def getMaxTorques (s : DynamicsSolver) : List ℚ := s.maxTorques

/-- A vector of `n` zeros (`std::vector<double>(n, 0.0)`). -/
def zeroVec (n : Nat) : List ℚ := List.replicate n (0 : ℚ)

/-- The result of `DynamicsSolver::getTorques` (lines 154-223): success flag
plus the final contents of the caller's `torques` buffer. The body of the C++
method never references the cached robot state `state_`, so this is a pure
function of the solver's read-only fields and the inputs; the checks appear
in source order (validity, angles, velocities, accelerations, wrenches,
torques, then the engine status). On every failure path the buffer is
returned unchanged. -/
def getTorquesRes (s : DynamicsSolver) (jointAngles jointVelocities
    jointAccelerations : List ℚ) (wrenches : List Wrench)
    (torques : List ℚ) : Bool × List ℚ :=
  if s.jointModelGroup.isNone then (false, torques)
  else if jointAngles.length ≠ s.numJoints then (false, torques)
  else if jointVelocities.length ≠ s.numJoints then (false, torques)
  else if jointAccelerations.length ≠ s.numJoints then (false, torques)
  else if wrenches.length ≠ s.numSegments then (false, torques)
  else if torques.length ≠ s.numJoints then (false, torques)
  else
    let r := s.engine jointAngles jointVelocities jointAccelerations wrenches
    if r.1 < 0 then (false, torques)
    else (true, (List.range s.numJoints).map r.2)

/-- `DynamicsSolver::getTorques` as a method on the solver with its cached
robot state threaded through: the body never touches `state_`, so the state
is returned untouched on every path. -/
def getTorques (s : DynamicsSolver) (st : RState) (jointAngles jointVelocities
    jointAccelerations : List ℚ) (wrenches : List Wrench)
    (torques : List ℚ) : (Bool × List ℚ) × RState :=
  (getTorquesRes s jointAngles jointVelocities jointAccelerations wrenches torques, st)

/-- Overwrite the last element of a list, modelling the in-place mutation of
`wrenches.back()`; a no-op on the empty list. -/
def setLast {α : Type} (xs : List α) (a : α) : List α :=
  match xs with
  | [] => []
  | [_] => [a]
  | x :: y :: rest => x :: setLast (y :: rest) a

/-- The value of `std::numeric_limits<double>::max()`, the initial value of
`min_payload` in `getMaxPayload`. The product is computed in `ℕ` and cast. -/
def dblMax : ℚ := ((2 ^ 53 - 1) * 2 ^ 971 : ℕ)

/-- The per-joint payload bound of `getMaxPayload` (lines 273-275): the
larger of the two candidate bounds. `mt`, `zt`, `ut` are `max_torques_[i]`,
`zero_torques[i]` and `torques[i]` (the unit-wrench torques). -/
def payloadJoint (mt zt ut : ℚ) : ℚ :=
  max ((mt - zt) / (ut - zt)) ((-mt - zt) / (ut - zt))

/-- The gravity-saturation scan of `getMaxPayload` (lines 246-254): the loop
`for i in [0, n)` returning the first index where the predicate holds.
`fuel` is the number of iterations left, `i` the current index. -/
def findSaturatedAux (p : Nat → Bool) : Nat → Nat → Option Nat
  | 0, _ => none
  | fuel + 1, i => if p i then some i else findSaturatedAux p fuel (i + 1)

/-- The minimum-payload scan of `getMaxPayload` (lines 270-284): the loop
`for i in [0, n)` keeping the running minimum `minP` and the index `sat` of
the last strict improvement. `fuel` is the number of iterations left, `i`
the current index. -/
def minLoopAux (pj : Nat → ℚ) : Nat → Nat → ℚ → Nat → ℚ × Nat
  | 0, _, minP, sat => (minP, sat)
  | fuel + 1, i, minP, sat =>
    if pj i < minP then minLoopAux pj fuel (i + 1) (pj i) i
    else minLoopAux pj fuel (i + 1) minP sat

/-- The transform composed by the payload methods (lines 256-259 and
311-315): set the cached state's group positions to the query angles, read
the base and tip frame transforms, and form `tip_frame.inverse() *
base_frame`. -/
def tipTransform (s : DynamicsSolver) (jointAngles : List ℚ) : Isometry3 :=
  isoMul (isoInverse (s.frameTransform jointAngles s.tipName))
    (s.frameTransform jointAngles s.baseName)

/-- The wrench list built by the payload methods (lines 260-262 and 316-318):
all segments carry the zero wrench except the tip segment, whose force starts
as `(0, 0, fz)` and whose torque starts as zero, both then rotated by
`transformVector` (the linear part of `tipTransform`). -/
def loadedWrenches (s : DynamicsSolver) (jointAngles : List ℚ) (fz : ℚ) :
    List Wrench :=
  setLast (List.replicate s.numSegments zeroWrench)
    { force := transformVector (tipTransform s jointAngles) ⟨0, 0, fz⟩
      torque := transformVector (tipTransform s jointAngles) ⟨0, 0, 0⟩ }

/-- `DynamicsSolver::getMaxPayload` (lines 225-288). Inputs `payload` and
`jointSaturated` are the caller's output variables, returned unchanged on
paths that do not write them. The state is mutated (group positions set to
the query angles) exactly when the computation passes the gravity-saturation
scan. -/
def getMaxPayload (s : DynamicsSolver) (st : RState) (jointAngles : List ℚ)
    (payload : ℚ) (jointSaturated : Nat) : (Bool × ℚ × Nat) × RState :=
  if s.jointModelGroup.isNone then ((false, payload, jointSaturated), st)
  else if jointAngles.length ≠ s.numJoints then
    ((false, payload, jointSaturated), st)
  else
    let r0 := getTorquesRes s jointAngles (zeroVec s.numJoints)
      (zeroVec s.numJoints) (List.replicate s.numSegments zeroWrench)
      (zeroVec s.numJoints)
    if r0.1 = false then ((false, payload, jointSaturated), st)
    else
      let zeroTorques := r0.2
      match findSaturatedAux
          (fun i => decide (s.maxTorques.getD i 0 ≤ |zeroTorques.getD i 0|))
          s.numJoints 0 with
      | some i => ((true, 0, i), st)
      | none =>
        let r1 := getTorquesRes s jointAngles (zeroVec s.numJoints)
          (zeroVec s.numJoints) (loadedWrenches s jointAngles 1)
          (zeroVec s.numJoints)
        if r1.1 = false then
          ((false, payload, jointSaturated), ⟨jointAngles⟩)
        else
          let torques := r1.2
          let res := minLoopAux
            (fun i => payloadJoint (s.maxTorques.getD i 0)
              (zeroTorques.getD i 0) (torques.getD i 0))
            s.numJoints 0 dblMax jointSaturated
          ((true, res.1 / s.gravity, res.2), ⟨jointAngles⟩)

/-- `DynamicsSolver::getPayloadTorques` (lines 290-324): after the three
precondition checks it sets the group positions, builds the tip wrench with
force magnitude `payload * gravity_`, and returns the result of a single
`getTorques` call. -/
def getPayloadTorques (s : DynamicsSolver) (st : RState)
    (jointAngles : List ℚ) (payload : ℚ) (jointTorques : List ℚ) :
    (Bool × List ℚ) × RState :=
  if s.jointModelGroup.isNone then ((false, jointTorques), st)
  else if jointAngles.length ≠ s.numJoints then ((false, jointTorques), st)
  else if jointTorques.length ≠ s.numJoints then ((false, jointTorques), st)
  else
    getTorques s ⟨jointAngles⟩ jointAngles (zeroVec s.numJoints)
      (zeroVec s.numJoints) (loadedWrenches s jointAngles (payload * s.gravity))
      jointTorques

/-- Derived description of the first (gravity-only) torque computation in
`getMaxPayload`: the torque list produced by the engine at the query angles
with zero velocities, zero accelerations and all-zero wrenches. -/
def zeroTorquesList (s : DynamicsSolver) (jointAngles : List ℚ) : List ℚ :=
  (List.range s.numJoints).map
    (s.engine jointAngles (zeroVec s.numJoints) (zeroVec s.numJoints)
      (List.replicate s.numSegments zeroWrench)).2

/-- Derived description of the second (unit-tip-wrench) torque computation in
`getMaxPayload`. -/
def unitTorquesList (s : DynamicsSolver) (jointAngles : List ℚ) : List ℚ :=
  (List.range s.numJoints).map
    (s.engine jointAngles (zeroVec s.numJoints) (zeroVec s.numJoints)
      (loadedWrenches s jointAngles 1)).2

/-- Joint `i`'s payload capacity in force units, as computed by
`getMaxPayload` from the two torque lists. -/
def capJoint (s : DynamicsSolver) (jointAngles : List ℚ) (i : Nat) : ℚ :=
  payloadJoint (s.maxTorques.getD i 0) ((zeroTorquesList s jointAngles).getD i 0)
    ((unitTorquesList s jointAngles).getD i 0)

lemma applyMat_zeroVec (m : Mat3) : applyMat m ⟨0, 0, 0⟩ = ⟨0, 0, 0⟩ := by
  simp [applyMat]

lemma isNone_eq_false_of_isSome {o : Option JointModelGroup}
    (h : o.isSome = true) : o.isNone = false := by
  cases o <;> simp_all

lemma getTorquesRes_of_invalid (s : DynamicsSolver)
    (h : s.jointModelGroup = none) (a v ac : List ℚ) (w : List Wrench)
    (t : List ℚ) : getTorquesRes s a v ac w t = (false, t) := by
  simp [getTorquesRes, h]

lemma getMaxPayload_of_invalid (s : DynamicsSolver)
    (h : s.jointModelGroup = none) (st : RState) (a : List ℚ) (p : ℚ)
    (j : Nat) : getMaxPayload s st a p j = ((false, p, j), st) := by
  simp [getMaxPayload, h]

lemma getPayloadTorques_of_invalid (s : DynamicsSolver)
    (h : s.jointModelGroup = none) (st : RState) (a : List ℚ) (m : ℚ)
    (buf : List ℚ) : getPayloadTorques s st a m buf = ((false, buf), st) := by
  simp [getPayloadTorques, h]

lemma getTorquesRes_success (s : DynamicsSolver) (a v ac : List ℚ)
    (w : List Wrench) (t : List ℚ)
    (hg : s.jointModelGroup.isSome = true)
    (ha : a.length = s.numJoints) (hv : v.length = s.numJoints)
    (hac : ac.length = s.numJoints) (hw : w.length = s.numSegments)
    (ht : t.length = s.numJoints)
    (hst : 0 ≤ (s.engine a v ac w).1) :
    getTorquesRes s a v ac w t =
      (true, (List.range s.numJoints).map (s.engine a v ac w).2) := by
  simp [getTorquesRes, isNone_eq_false_of_isSome hg, ha, hv, hac, hw, ht,
    not_lt.mpr hst]

lemma setLast_length {α : Type} (xs : List α) (a : α) :
    (setLast xs a).length = xs.length := by
  induction xs with
  | nil => rfl
  | cons x rest ih =>
    cases rest with
    | nil => rfl
    | cons y r2 => simpa [setLast] using ih

lemma getD_range_map (f : Nat → ℚ) (n i : Nat) (h : i < n) :
    ((List.range n).map f).getD i 0 = f i := by
  rw [List.getD_eq_getElem?_getD]
  simp [List.getElem?_range, h]

lemma findSaturatedAux_none (p : Nat → Bool) :
    ∀ (fuel i : Nat), (∀ j, i ≤ j → j < i + fuel → p j = false) →
      findSaturatedAux p fuel i = none := by
  intro fuel
  induction fuel with
  | zero => intro i _; rfl
  | succ m ih =>
    intro i h
    have hpi : p i = false := h i le_rfl (by omega)
    rw [findSaturatedAux, hpi]
    simpa using ih (i + 1) fun j h1 h2 => h j (by omega) (by omega)

lemma findSaturatedAux_first (p : Nat → Bool) :
    ∀ (fuel i k : Nat), i ≤ k → k < i + fuel → p k = true →
      (∀ j, i ≤ j → j < k → p j = false) →
      findSaturatedAux p fuel i = some k := by
  intro fuel
  induction fuel with
  | zero => intro i k h1 h2 _ _; omega
  | succ m ih =>
    intro i k h1 h2 hk hmin
    rcases Nat.eq_or_lt_of_le h1 with rfl | hlt
    · rw [findSaturatedAux, hk]; rfl
    · have hpi : p i = false := hmin i le_rfl hlt
      rw [findSaturatedAux, hpi]
      simpa using ih (i + 1) k (by omega) (by omega) hk
        fun j ha hb => hmin j (by omega) hb

lemma minLoopAux_le (pj : Nat → ℚ) :
    ∀ (fuel i : Nat) (minP : ℚ) (sat : Nat),
      (minLoopAux pj fuel i minP sat).1 ≤ minP ∧
      ∀ j, i ≤ j → j < i + fuel → (minLoopAux pj fuel i minP sat).1 ≤ pj j := by
  intro fuel
  induction fuel with
  | zero =>
    intro i minP sat
    exact ⟨le_rfl, fun j h1 h2 => absurd h2 (by omega)⟩
  | succ m ih =>
    intro i minP sat
    rw [minLoopAux]
    by_cases hc : pj i < minP
    · rw [if_pos hc]
      obtain ⟨h1, h2⟩ := ih (i + 1) (pj i) i
      refine ⟨h1.trans (le_of_lt hc), ?_⟩
      intro j hj1 hj2
      rcases Nat.eq_or_lt_of_le hj1 with rfl | hlt
      · exact h1
      · exact h2 j hlt (by omega)
    · rw [if_neg hc]
      obtain ⟨h1, h2⟩ := ih (i + 1) minP sat
      refine ⟨h1, ?_⟩
      intro j hj1 hj2
      rcases Nat.eq_or_lt_of_le hj1 with rfl | hlt
      · exact h1.trans (not_lt.mp hc)
      · exact h2 j hlt (by omega)

lemma minLoopAux_attained (pj : Nat → ℚ) :
    ∀ (fuel i : Nat) (minP : ℚ) (sat : Nat),
      minLoopAux pj fuel i minP sat = (minP, sat) ∨
      ∃ j, i ≤ j ∧ j < i + fuel ∧ minLoopAux pj fuel i minP sat = (pj j, j) := by
  intro fuel
  induction fuel with
  | zero => intro i minP sat; exact Or.inl rfl
  | succ m ih =>
    intro i minP sat
    rw [minLoopAux]
    by_cases hc : pj i < minP
    · rw [if_pos hc]
      rcases ih (i + 1) (pj i) i with h | ⟨j, h1, h2, h3⟩
      · exact Or.inr ⟨i, le_rfl, by omega, h⟩
      · exact Or.inr ⟨j, by omega, by omega, h3⟩
    · rw [if_neg hc]
      rcases ih (i + 1) minP sat with h | ⟨j, h1, h2, h3⟩
      · exact Or.inl h
      · exact Or.inr ⟨j, by omega, by omega, h3⟩

lemma loadedWrenches_length (s : DynamicsSolver) (a : List ℚ) (fz : ℚ) :
    (loadedWrenches s a fz).length = s.numSegments := by
  simp [loadedWrenches, setLast_length]

lemma getMaxPayload_reduce (s : DynamicsSolver) (st : RState) (a : List ℚ)
    (p0 : ℚ) (j0 : Nat)
    (hg : s.jointModelGroup.isSome = true)
    (hlen : a.length = s.numJoints)
    (hs0 : 0 ≤ (s.engine a (zeroVec s.numJoints) (zeroVec s.numJoints)
      (List.replicate s.numSegments zeroWrench)).1)
    (hnosat : ∀ i < s.numJoints,
      |(zeroTorquesList s a).getD i 0| < s.maxTorques.getD i 0)
    (hs1 : 0 ≤ (s.engine a (zeroVec s.numJoints) (zeroVec s.numJoints)
      (loadedWrenches s a 1)).1) :
    getMaxPayload s st a p0 j0 =
      ((true, (minLoopAux (capJoint s a) s.numJoints 0 dblMax j0).1 / s.gravity,
        (minLoopAux (capJoint s a) s.numJoints 0 dblMax j0).2), ⟨a⟩) := by
  have hr0 : getTorquesRes s a (zeroVec s.numJoints) (zeroVec s.numJoints)
      (List.replicate s.numSegments zeroWrench) (zeroVec s.numJoints)
      = (true, zeroTorquesList s a) :=
    getTorquesRes_success s _ _ _ _ _ hg hlen (List.length_replicate _ _)
      (List.length_replicate _ _) (List.length_replicate _ _)
      (List.length_replicate _ _) hs0
  have hr1 : getTorquesRes s a (zeroVec s.numJoints) (zeroVec s.numJoints)
      (loadedWrenches s a 1) (zeroVec s.numJoints)
      = (true, unitTorquesList s a) :=
    getTorquesRes_success s _ _ _ _ _ hg hlen (List.length_replicate _ _)
      (List.length_replicate _ _) (loadedWrenches_length s a 1)
      (List.length_replicate _ _) hs1
  have hfind : findSaturatedAux
      (fun i => decide (s.maxTorques.getD i 0 ≤ |(zeroTorquesList s a).getD i 0|))
      s.numJoints 0 = none := by
    apply findSaturatedAux_none
    intro j _ h2
    simpa using not_le.mpr (hnosat j (by omega))
  rw [getMaxPayload, isNone_eq_false_of_isSome hg]
  simp only [Bool.false_eq_true, if_false, hlen, ne_eq, not_true_eq_false,
    hr0, hr1, hfind]
  rfl

lemma constructSolver_cases (model : RobotModel) (groupName : String)
    (gv : Vector3) :
    constructSolver model groupName gv = invalidSolver ∨
    ∃ g b chain, model.getJointModelGroup groupName = some g ∧
      g.isChain = true ∧ g.mimicJointModels.isEmpty = true ∧
      (g.jointRoots.head?).bind JointModel.parentLinkModel = some b ∧
      model.treeFromUrdf = true ∧
      model.getChain b (g.linkModelNames.getLastD "") = some chain ∧
      constructSolver model groupName gv =
        { jointModelGroup := some g
          baseName := b
          tipName := g.linkModelNames.getLastD ""
          numJoints := chain.nrOfJoints
          numSegments := chain.nrOfSegments
          maxTorques := g.jointModelNames.map (effortOr0 model)
          gravity := model.vecNorm gv
          engine := model.mkEngine chain gv
          frameTransform := model.frameTransform } := by
  unfold constructSolver
  cases hg : model.getJointModelGroup groupName with
  | none => exact Or.inl rfl
  | some g =>
    dsimp only
    by_cases hc : g.isChain = false
    · rw [if_pos hc]; exact Or.inl rfl
    · rw [if_neg hc]
      by_cases hm : g.mimicJointModels.isEmpty = false
      · rw [if_pos hm]; exact Or.inl rfl
      · rw [if_neg hm]
        cases hb : (g.jointRoots.head?).bind JointModel.parentLinkModel with
        | none => exact Or.inl rfl
        | some b =>
          dsimp only
          by_cases ht : model.treeFromUrdf = false
          · rw [if_pos ht]; exact Or.inl rfl
          · rw [if_neg ht]
            cases hk : model.getChain b (g.linkModelNames.getLastD "") with
            | none => exact Or.inl rfl
            | some chain =>
              dsimp only
              refine Or.inr ⟨g, b, chain, rfl, ?_, ?_, hb, ?_, hk, rfl⟩
              · revert hc; cases g.isChain <;> simp
              · revert hm; cases g.mimicJointModels.isEmpty <;> simp
              · revert ht; cases model.treeFromUrdf <;> simp

lemma constructSolver_success (model : RobotModel) (groupName : String)
    (gv : Vector3) (g : JointModelGroup) (b : String) (chain : KDLChain)
    (hg : model.getJointModelGroup groupName = some g)
    (hchain : g.isChain = true)
    (hmimic : g.mimicJointModels.isEmpty = true)
    (hroot : (g.jointRoots.head?).bind JointModel.parentLinkModel = some b)
    (htree : model.treeFromUrdf = true)
    (hkdl : model.getChain b (g.linkModelNames.getLastD "") = some chain) :
    constructSolver model groupName gv =
      { jointModelGroup := some g
        baseName := b
        tipName := g.linkModelNames.getLastD ""
        numJoints := chain.nrOfJoints
        numSegments := chain.nrOfSegments
        maxTorques := g.jointModelNames.map (effortOr0 model)
        gravity := model.vecNorm gv
        engine := model.mkEngine chain gv
        frameTransform := model.frameTransform } := by
  unfold constructSolver
  rw [hg]
  dsimp only
  rw [if_neg (by simp [hchain]), if_neg (by simp [hmimic]), hroot]
  dsimp only
  rw [if_neg (by simp [htree]), hkdl]

lemma invalidSolver_queries_fail :
    (∀ st a v ac w t, getTorques invalidSolver st a v ac w t = ((false, t), st)) ∧
    (∀ st a p j, getMaxPayload invalidSolver st a p j = ((false, p, j), st)) ∧
    (∀ st a m buf, getPayloadTorques invalidSolver st a m buf = ((false, buf), st)) ∧
    getMaxTorques invalidSolver = [] := by
  refine ⟨?_, ?_, ?_, rfl⟩
  · intro st a v ac w t
    unfold getTorques
    rw [getTorquesRes_of_invalid invalidSolver rfl]
  · intro st a p j
    exact getMaxPayload_of_invalid invalidSolver rfl st a p j
  · intro st a m buf
    exact getPayloadTorques_of_invalid invalidSolver rfl st a m buf

/-- C3: `computeTorques` (`getTorques`) fails exactly when the solver is
invalid, or one of the five vectors has the wrong length (angles,
velocities, accelerations and the output buffer against `jointCount`,
wrenches against `segmentCount`), or the engine reports a negative status;
the checks are nested in exactly that order in `getTorquesRes`, solver
validity first, mirroring source lines 159-189; and on every failure path
the caller's output buffer is returned entirely unchanged. -/
theorem getTorques_failure_conditions (s : DynamicsSolver) (st : RState)
    (a v ac : List ℚ) (w : List Wrench) (t : List ℚ) :
    ((getTorques s st a v ac w t).1.1 = false ↔
      s.jointModelGroup = none ∨ a.length ≠ s.numJoints ∨
      v.length ≠ s.numJoints ∨ ac.length ≠ s.numJoints ∨
      w.length ≠ s.numSegments ∨ t.length ≠ s.numJoints ∨
      (s.engine a v ac w).1 < 0) ∧
    ((getTorques s st a v ac w t).1.1 = false →
      (getTorques s st a v ac w t).1.2 = t) := by
  unfold getTorques getTorquesRes
  by_cases h7 : (s.engine a v ac w).1 < 0
  · split_ifs with h1 h2 h3 h4 h5 h6 <;> simp_all [Option.isNone_iff_eq_none]
  · split_ifs with h1 h2 h3 h4 h5 h6 <;>
      simp_all [Option.isNone_iff_eq_none, if_neg h7]

/-- C3 witness: concrete invocation of `getTorques_failure_conditions`. -/
theorem getTorques_failure_conditions_witness :
    ((getTorques invalidSolver ⟨[]⟩ [] [] [] [] []).1.1 = false ↔
      invalidSolver.jointModelGroup = none ∨
      List.length ([] : List ℚ) ≠ invalidSolver.numJoints ∨
      List.length ([] : List ℚ) ≠ invalidSolver.numJoints ∨
      List.length ([] : List ℚ) ≠ invalidSolver.numJoints ∨
      List.length ([] : List Wrench) ≠ invalidSolver.numSegments ∨
      List.length ([] : List ℚ) ≠ invalidSolver.numJoints ∨
      (invalidSolver.engine [] [] [] []).1 < 0) ∧
    ((getTorques invalidSolver ⟨[]⟩ [] [] [] [] []).1.1 = false →
      (getTorques invalidSolver ⟨[]⟩ [] [] [] [] []).1.2 = []) :=
  getTorques_failure_conditions invalidSolver ⟨[]⟩ [] [] [] [] []

/-- C7: `computeTorques` never mutates any solver state: the cached robot
state threaded through `getTorques` is returned untouched, and an immediately
repeated call with identical inputs, starting from the state the first call
returned, produces the same success flag and the same torque vector. -/
theorem getTorques_state_pure (s : DynamicsSolver) (st : RState)
    (a v ac : List ℚ) (w : List Wrench) (t : List ℚ) :
    (getTorques s st a v ac w t).2 = st ∧
    getTorques s ((getTorques s st a v ac w t).2) a v ac w t =
      getTorques s st a v ac w t :=
  ⟨rfl, rfl⟩

/-- C9: `computePayloadTorques` (`getPayloadTorques`) returns failure on an
invalid solver, on a wrong-length angle vector, and — a check
`computeMaxPayload` has no counterpart for, since it takes no output torque
buffer — on a wrong-length output torque vector; on each of these
precondition failures it returns before `setJointGroupPositions`, leaving
the shared cached robot state unchanged and the buffer unwritten. -/
theorem getPayloadTorques_precondition_failures (s : DynamicsSolver)
    (st : RState) (a : List ℚ) (m : ℚ) (buf : List ℚ)
    (h : s.jointModelGroup = none ∨ a.length ≠ s.numJoints ∨
      buf.length ≠ s.numJoints) :
    getPayloadTorques s st a m buf = ((false, buf), st) := by
  rcases h with h | h | h
  · exact getPayloadTorques_of_invalid s h st a m buf
  · by_cases hg : s.jointModelGroup.isNone <;> simp [getPayloadTorques, hg, h]
  · by_cases hg : s.jointModelGroup.isNone <;>
      by_cases ha : a.length ≠ s.numJoints <;>
      simp [getPayloadTorques, hg, ha, h]

/-- C5: for every solver whose construction failed structurally (group not a
chain, group containing a mimic joint, root joint without a parent link, or
KDL tree/chain construction failure), every subsequent call to `getTorques`,
`getMaxPayload` and `getPayloadTorques` fails uniformly — for all input
vectors of any length, before any numeric work, leaving buffers and the
cached state unchanged — and `getMaxTorques` returns the empty vector. -/
theorem invalid_construction_queries_fail (model : RobotModel)
    (groupName : String) (gv : Vector3) (g : JointModelGroup)
    (hg : model.getJointModelGroup groupName = some g)
    (hbad : g.isChain = false ∨ g.mimicJointModels ≠ [] ∨
      (g.jointRoots.head?).bind JointModel.parentLinkModel = none ∨
      model.treeFromUrdf = false ∨
      (∀ b, (g.jointRoots.head?).bind JointModel.parentLinkModel = some b →
        model.getChain b (g.linkModelNames.getLastD "") = none)) :
    (constructSolver model groupName gv).jointModelGroup = none ∧
    (∀ st a v ac w t, getTorques (constructSolver model groupName gv)
      st a v ac w t = ((false, t), st)) ∧
    (∀ st a p j, getMaxPayload (constructSolver model groupName gv)
      st a p j = ((false, p, j), st)) ∧
    (∀ st a m buf, getPayloadTorques (constructSolver model groupName gv)
      st a m buf = ((false, buf), st)) ∧
    getMaxTorques (constructSolver model groupName gv) = [] := by
  have hinv : constructSolver model groupName gv = invalidSolver := by
    rcases constructSolver_cases model groupName gv with h |
      ⟨g2, b, chain, hg2, hc, hm, hb, ht, hk, _⟩
    · exact h
    · exfalso
      rw [hg] at hg2
      obtain rfl := Option.some.inj hg2
      rcases hbad with h | h | h | h | h
      · rw [hc] at h; cases h
      · rw [List.isEmpty_iff] at hm; exact h hm
      · rw [hb] at h; cases h
      · rw [ht] at h; cases h
      · have h2 := h b hb; rw [hk] at h2; cases h2
  rw [hinv]
  exact ⟨rfl, invalidSolver_queries_fail.1, invalidSolver_queries_fail.2.1,
    invalidSolver_queries_fail.2.2.1, invalidSolver_queries_fail.2.2.2⟩

/-- C8: constructing a solver with a group name unknown to the robot model
(`getJointModelGroup` returns null) yields a permanently invalid solver:
every query operation fails for all inputs and `getMaxTorques` returns the
empty vector. -/
theorem unknown_group_queries_fail (model : RobotModel) (groupName : String)
    (gv : Vector3) (hg : model.getJointModelGroup groupName = none) :
    (constructSolver model groupName gv).jointModelGroup = none ∧
    (∀ st a v ac w t, getTorques (constructSolver model groupName gv)
      st a v ac w t = ((false, t), st)) ∧
    (∀ st a p j, getMaxPayload (constructSolver model groupName gv)
      st a p j = ((false, p, j), st)) ∧
    (∀ st a m buf, getPayloadTorques (constructSolver model groupName gv)
      st a m buf = ((false, buf), st)) ∧
    getMaxTorques (constructSolver model groupName gv) = [] := by
  have hinv : constructSolver model groupName gv = invalidSolver := by
    unfold constructSolver
    rw [hg]
  rw [hinv]
  exact ⟨rfl, invalidSolver_queries_fail.1, invalidSolver_queries_fail.2.1,
    invalidSolver_queries_fail.2.2.1, invalidSolver_queries_fail.2.2.2⟩

/-- C1: for every valid solver and angle vector of length `jointCount`, when
no joint is gravity-saturated, both engine calls succeed, and every per-joint
capacity is below the `DBL_MAX` initial value of the scan, `getMaxPayload`
returns success with payload equal to the minimum over all joints of
`max((limit − zero) / (unit − zero), (−limit − zero) / (unit − zero))`
(`capJoint`), divided by `gravityNorm`, and the reported binding joint index
attains that minimum. -/
theorem getMaxPayload_min_capacity_formula (s : DynamicsSolver) (st : RState)
    (a : List ℚ) (p0 : ℚ) (j0 : Nat)
    (hg : s.jointModelGroup.isSome = true)
    (hlen : a.length = s.numJoints)
    (hn : 0 < s.numJoints)
    (hs0 : 0 ≤ (s.engine a (zeroVec s.numJoints) (zeroVec s.numJoints)
      (List.replicate s.numSegments zeroWrench)).1)
    (hnosat : ∀ i < s.numJoints,
      |(zeroTorquesList s a).getD i 0| < s.maxTorques.getD i 0)
    (hs1 : 0 ≤ (s.engine a (zeroVec s.numJoints) (zeroVec s.numJoints)
      (loadedWrenches s a 1)).1)
    (hbd : ∀ i < s.numJoints, capJoint s a i < dblMax) :
    ∃ k, k < s.numJoints ∧
      capJoint s a k = (Finset.range s.numJoints).inf'
        (Finset.nonempty_range_iff.mpr hn.ne') (capJoint s a) ∧
      getMaxPayload s st a p0 j0 =
        ((true, (Finset.range s.numJoints).inf'
          (Finset.nonempty_range_iff.mpr hn.ne') (capJoint s a) / s.gravity,
          k), ⟨a⟩) := by
  have hred := getMaxPayload_reduce s st a p0 j0 hg hlen hs0 hnosat hs1
  obtain ⟨hle1, hle2⟩ := minLoopAux_le (capJoint s a) s.numJoints 0 dblMax j0
  rcases minLoopAux_attained (capJoint s a) s.numJoints 0 dblMax j0 with
    hat | ⟨j, hj1, hj2, hj3⟩
  · exfalso
    have h0 : (minLoopAux (capJoint s a) s.numJoints 0 dblMax j0).1 ≤
        capJoint s a 0 := hle2 0 le_rfl (by omega)
    rw [hat] at h0
    exact absurd (hbd 0 hn) (not_lt.mpr h0)
  · have hmin : capJoint s a j = (Finset.range s.numJoints).inf'
        (Finset.nonempty_range_iff.mpr hn.ne') (capJoint s a) := by
      apply le_antisymm
      · apply Finset.le_inf'
        intro b hb
        have hb2 := hle2 b (Nat.zero_le b) (by simpa using Finset.mem_range.mp hb)
        rw [hj3] at hb2
        exact hb2
      · exact Finset.inf'_le _ (Finset.mem_range.mpr (by omega))
    refine ⟨j, by omega, hmin, ?_⟩
    rw [hred, hj3, ← hmin]

/-- C2: for every valid solver and angle vector of length `jointCount`, if
the gravity-only torque computation succeeds and joint `i0` is the first
joint in chain order with `|zeroTorques[i0]| ≥ limit[i0]`, then
`getMaxPayload` returns success with payload `0.0` and index `i0`, leaving
the cached state unchanged. No hypothesis constrains the engine's behaviour
on the unit-tip-wrench input, so the result is independent of the second
torque computation: it is never performed. -/
theorem getMaxPayload_gravity_saturated (s : DynamicsSolver) (st : RState)
    (a : List ℚ) (p0 : ℚ) (j0 i0 : Nat)
    (hg : s.jointModelGroup.isSome = true)
    (hlen : a.length = s.numJoints)
    (hs0 : 0 ≤ (s.engine a (zeroVec s.numJoints) (zeroVec s.numJoints)
      (List.replicate s.numSegments zeroWrench)).1)
    (hi : i0 < s.numJoints)
    (hsat : s.maxTorques.getD i0 0 ≤ |(zeroTorquesList s a).getD i0 0|)
    (hfirst : ∀ j < i0,
      |(zeroTorquesList s a).getD j 0| < s.maxTorques.getD j 0) :
    getMaxPayload s st a p0 j0 = ((true, 0, i0), st) := by
  have hr0 : getTorquesRes s a (zeroVec s.numJoints) (zeroVec s.numJoints)
      (List.replicate s.numSegments zeroWrench) (zeroVec s.numJoints)
      = (true, zeroTorquesList s a) :=
    getTorquesRes_success s _ _ _ _ _ hg hlen (List.length_replicate _ _)
      (List.length_replicate _ _) (List.length_replicate _ _)
      (List.length_replicate _ _) hs0
  have hfind : findSaturatedAux
      (fun i => decide (s.maxTorques.getD i 0 ≤ |(zeroTorquesList s a).getD i 0|))
      s.numJoints 0 = some i0 :=
    findSaturatedAux_first _ _ 0 i0 (Nat.zero_le _) (by omega)
      (by simpa using hsat)
      (fun j _ h2 => by simpa using not_le.mpr (hfirst j h2))
  rw [getMaxPayload, isNone_eq_false_of_isSome hg]
  simp only [Bool.false_eq_true, if_false, hlen, ne_eq, not_true_eq_false,
    hr0, hfind]
  rfl

/-- C4: for every valid solver, angle vector and output buffer of length
`jointCount`, and payload mass, `getPayloadTorques` produces its result by a
single `getTorques` call — on the state with positions set to the query
angles, with zero velocities and accelerations, and with a wrench list that
is zero on every segment except the tip, whose force is
`(0, 0, payload * gravityNorm)` rotated by the rotational part only of the
transform `tip⁻¹ * base` (`tipTransform`, translation discarded) and whose
torque is exactly zero. -/
theorem getPayloadTorques_single_call (s : DynamicsSolver) (st : RState)
    (a : List ℚ) (m : ℚ) (buf : List ℚ)
    (hg : s.jointModelGroup.isSome = true)
    (ha : a.length = s.numJoints) (hb : buf.length = s.numJoints) :
    getPayloadTorques s st a m buf =
      getTorques s ⟨a⟩ a (zeroVec s.numJoints) (zeroVec s.numJoints)
        (setLast (List.replicate s.numSegments zeroWrench)
          { force := applyMat (tipTransform s a).linear ⟨0, 0, m * s.gravity⟩
            torque := ⟨0, 0, 0⟩ }) buf := by
  rw [getPayloadTorques, isNone_eq_false_of_isSome hg]
  simp only [Bool.false_eq_true, if_false, ha, hb, ne_eq, not_true_eq_false,
    loadedWrenches, transformVector, applyMat_zeroVec]

/-- C6: after every successful construction, the cached torque-limit vector
is exactly the map of `effortOr0` (the joint's declared effort limit when
the robot model declares one, `0.0` otherwise) over the group's joint names
in chain order, and — under the spec's invariant that the KDL chain's joint
count equals the validated group's joint count — its length equals
`jointCount`.  The hypothesis `hwf` is modelled from the spec: the KDL chain
builder is external to this repository, and spec section 3 states the
invariant that `jointCount` equals the validated group's joint count. -/
theorem maxTorques_entries_and_length (model : RobotModel)
    (groupName : String) (gv : Vector3) (g : JointModelGroup) (b : String)
    (chain : KDLChain)
    (hg : model.getJointModelGroup groupName = some g)
    (hchain : g.isChain = true)
    (hmimic : g.mimicJointModels.isEmpty = true)
    (hroot : (g.jointRoots.head?).bind JointModel.parentLinkModel = some b)
    (htree : model.treeFromUrdf = true)
    (hkdl : model.getChain b (g.linkModelNames.getLastD "") = some chain)
    (hwf : chain.nrOfJoints = g.jointModelNames.length) :
    (constructSolver model groupName gv).maxTorques =
      g.jointModelNames.map (effortOr0 model) ∧
    (constructSolver model groupName gv).maxTorques.length =
      (constructSolver model groupName gv).numJoints := by
  rw [constructSolver_success model groupName gv g b chain hg hchain hmimic
    hroot htree hkdl]
  exact ⟨rfl, by simp [hwf]⟩

/-- C10: `getMaxPayload` never guards the final division of the force-unit
capacity by `gravityNorm`: for a solver constructed from a gravity vector of
norm zero, a query that reaches the conversion step still returns success,
with the payload computed as the minimum capacity divided by zero. (In this
rational-number embedding division by zero yields `0`; in IEEE doubles it
yields an infinity or NaN — either way no error is reported.) -/
theorem getMaxPayload_zero_gravity_success (model : RobotModel)
    (groupName : String) (gv : Vector3) (s : DynamicsSolver) (st : RState)
    (a : List ℚ) (p0 : ℚ) (j0 : Nat)
    (hs : constructSolver model groupName gv = s)
    (hnorm : model.vecNorm gv = 0)
    (hg : s.jointModelGroup.isSome = true)
    (hlen : a.length = s.numJoints)
    (hs0 : 0 ≤ (s.engine a (zeroVec s.numJoints) (zeroVec s.numJoints)
      (List.replicate s.numSegments zeroWrench)).1)
    (hnosat : ∀ i < s.numJoints,
      |(zeroTorquesList s a).getD i 0| < s.maxTorques.getD i 0)
    (hs1 : 0 ≤ (s.engine a (zeroVec s.numJoints) (zeroVec s.numJoints)
      (loadedWrenches s a 1)).1) :
    (getMaxPayload s st a p0 j0).1.1 = true ∧
    (getMaxPayload s st a p0 j0).1.2.1 =
      (minLoopAux (capJoint s a) s.numJoints 0 dblMax j0).1 / 0 := by
  have hgrav : s.gravity = 0 := by
    subst hs
    rcases constructSolver_cases model groupName gv with h |
      ⟨g, b, chain, _, _, _, _, _, _, heq⟩
    · rw [h] at hg
      simp [invalidSolver] at hg
    · rw [heq]
      exact hnorm
  rw [getMaxPayload_reduce s st a p0 j0 hg hlen hs0 hnosat hs1]
  exact ⟨rfl, by rw [hgrav]⟩

/-- Concrete one-joint chain group used by the witnesses. -/
def wGroup : JointModelGroup :=
  { isChain := true, mimicJointModels := [], jointRoots := [⟨some "base_link"⟩],
    linkModelNames := ["link1"], jointModelNames := ["joint1"] }

/-- Concrete group rejected by the chain check. -/
def wBadGroup : JointModelGroup :=
  { isChain := false, mimicJointModels := [], jointRoots := [],
    linkModelNames := [], jointModelNames := [] }

/-- Concrete robot model with one valid chain group and one non-chain
group. -/
def wModel : RobotModel :=
  { getJointModelGroup := fun n =>
      if n = "arm" then some wGroup
      else if n = "branching" then some wBadGroup else none
    urdfJoint := fun n => if n = "joint1" then some (some 10) else none
    treeFromUrdf := true
    getChain := fun b t =>
      if b = "base_link" ∧ t = "link1" then some ⟨1, 1⟩ else none
    vecNorm := fun v => if v = ⟨0, 0, 0⟩ then 0 else 981 / 100
    mkEngine := fun _ _ => fun _ _ _ _ => (0, fun _ => 0)
    frameTransform := fun _ _ => idIso }

/-- Concrete engine: torque 1 per joint under the all-zero wrench list,
torque 3 under a tip wrench with nonzero z-force. -/
def wEngine1 : IdEngine := fun _ _ _ w =>
  (0, fun _ => if (w.getLastD zeroWrench).force.z = 0 then 1 else 3)

/-- Concrete one-joint solver built on `wEngine1`. -/
def wSolver1 : DynamicsSolver :=
  { jointModelGroup := some wGroup, baseName := "b", tipName := "t",
    numJoints := 1, numSegments := 1, maxTorques := [10], gravity := 2,
    engine := wEngine1, frameTransform := fun _ _ => idIso }

/-- Concrete one-joint solver whose gravity-only torque 5 exceeds its
limit 1. -/
def wSolver2 : DynamicsSolver :=
  { jointModelGroup := some wGroup, baseName := "b", tipName := "t",
    numJoints := 1, numSegments := 1, maxTorques := [1], gravity := 2,
    engine := fun _ _ _ _ => (0, fun _ => 5),
    frameTransform := fun _ _ => idIso }

section

set_option maxRecDepth 100000

attribute [local semireducible] Rat.add Rat.mul Rat.inv Rat.sub

/-- C1 witness: `getMaxPayload_min_capacity_formula` at `wSolver1` with
angles `[0]`; the capacity is `max(9/2, -11/2) = 9/2` and the payload
`9/2 / 2 = 9/4`. -/
theorem getMaxPayload_min_capacity_formula_witness :
    ∃ k, k < wSolver1.numJoints ∧
      capJoint wSolver1 [0] k = (Finset.range wSolver1.numJoints).inf'
        (by decide) (capJoint wSolver1 [0]) ∧
      getMaxPayload wSolver1 ⟨[]⟩ [0] 0 0 =
        ((true, (Finset.range wSolver1.numJoints).inf'
          (by decide) (capJoint wSolver1 [0]) / wSolver1.gravity, k),
          ⟨[0]⟩) :=
  getMaxPayload_min_capacity_formula wSolver1 ⟨[]⟩ [0] 0 0 rfl rfl
    (by decide) (by decide) (by decide) (by decide) (by decide)

/-- C2 witness: `getMaxPayload_gravity_saturated` at `wSolver2`: joint 0 has
`|5| ≥ 1`, so the result is payload `0` at index `0` with the caller's
output variables and the state otherwise untouched. -/
theorem getMaxPayload_gravity_saturated_witness :
    getMaxPayload wSolver2 ⟨[]⟩ [0] 7 9 = ((true, 0, 0), ⟨[]⟩) :=
  getMaxPayload_gravity_saturated wSolver2 ⟨[]⟩ [0] 7 9 0 rfl rfl
    (by decide) (by decide) (by decide)
    (fun j hj => absurd hj (Nat.not_lt_zero j))

/-- C4 witness: `getPayloadTorques_single_call` at `wSolver1` with payload
mass 3. -/
theorem getPayloadTorques_single_call_witness :
    getPayloadTorques wSolver1 ⟨[]⟩ [0] 3 [0] =
      getTorques wSolver1 ⟨[0]⟩ [0] (zeroVec wSolver1.numJoints)
        (zeroVec wSolver1.numJoints)
        (setLast (List.replicate wSolver1.numSegments zeroWrench)
          { force := applyMat (tipTransform wSolver1 [0]).linear
              ⟨0, 0, 3 * wSolver1.gravity⟩
            torque := ⟨0, 0, 0⟩ }) [0] :=
  getPayloadTorques_single_call wSolver1 ⟨[]⟩ [0] 3 [0] rfl rfl rfl

/-- C5 witness: `invalid_construction_queries_fail` on the non-chain group
of `wModel`. -/
theorem invalid_construction_queries_fail_witness :
    (constructSolver wModel "branching" ⟨0, 0, -10⟩).jointModelGroup = none ∧
    getTorques (constructSolver wModel "branching" ⟨0, 0, -10⟩) ⟨[]⟩
      [1] [2] [3] [zeroWrench] [4] = ((false, [4]), ⟨[]⟩) ∧
    getMaxPayload (constructSolver wModel "branching" ⟨0, 0, -10⟩) ⟨[]⟩
      [1] 5 6 = ((false, 5, 6), ⟨[]⟩) ∧
    getPayloadTorques (constructSolver wModel "branching" ⟨0, 0, -10⟩) ⟨[]⟩
      [1] 2 [3] = ((false, [3]), ⟨[]⟩) ∧
    getMaxTorques (constructSolver wModel "branching" ⟨0, 0, -10⟩) = [] := by
  have h := invalid_construction_queries_fail wModel "branching" ⟨0, 0, -10⟩
    wBadGroup (by decide) (Or.inl rfl)
  exact ⟨h.1, h.2.1 _ _ _ _ _ _, h.2.2.1 _ _ _ _, h.2.2.2.1 _ _ _ _,
    h.2.2.2.2⟩

/-- C6 witness: `maxTorques_entries_and_length` on the valid group of
`wModel`: the cached limits are `[10]` with length equal to the joint
count 1. -/
theorem maxTorques_entries_and_length_witness :
    (constructSolver wModel "arm" ⟨0, 0, -10⟩).maxTorques =
      wGroup.jointModelNames.map (effortOr0 wModel) ∧
    (constructSolver wModel "arm" ⟨0, 0, -10⟩).maxTorques.length =
      (constructSolver wModel "arm" ⟨0, 0, -10⟩).numJoints :=
  maxTorques_entries_and_length wModel "arm" ⟨0, 0, -10⟩ wGroup "base_link"
    ⟨1, 1⟩ (by decide) rfl rfl rfl rfl (by decide) rfl

/-- C8 witness: `unknown_group_queries_fail` at a group name absent from
`wModel`. -/
theorem unknown_group_queries_fail_witness :
    (constructSolver wModel "nope" ⟨0, 0, -10⟩).jointModelGroup = none ∧
    getTorques (constructSolver wModel "nope" ⟨0, 0, -10⟩) ⟨[]⟩
      [1] [2] [3] [zeroWrench] [4] = ((false, [4]), ⟨[]⟩) ∧
    getMaxPayload (constructSolver wModel "nope" ⟨0, 0, -10⟩) ⟨[]⟩
      [1] 5 6 = ((false, 5, 6), ⟨[]⟩) ∧
    getPayloadTorques (constructSolver wModel "nope" ⟨0, 0, -10⟩) ⟨[]⟩
      [1] 2 [3] = ((false, [3]), ⟨[]⟩) ∧
    getMaxTorques (constructSolver wModel "nope" ⟨0, 0, -10⟩) = [] := by
  have h := unknown_group_queries_fail wModel "nope" ⟨0, 0, -10⟩ (by decide)
  exact ⟨h.1, h.2.1 _ _ _ _ _ _, h.2.2.1 _ _ _ _, h.2.2.2.1 _ _ _ _,
    h.2.2.2.2⟩

/-- C9 witness: `getPayloadTorques_precondition_failures` at `wSolver1` with
an empty output torque buffer (length 0 instead of 1). -/
theorem getPayloadTorques_precondition_failures_witness :
    getPayloadTorques wSolver1 ⟨[7]⟩ [0] 2 [] = ((false, []), ⟨[7]⟩) :=
  getPayloadTorques_precondition_failures wSolver1 ⟨[7]⟩ [0] 2 []
    (Or.inr (Or.inr (by decide)))

/-- C10 witness: `getMaxPayload_zero_gravity_success` on the solver
constructed from `wModel` with the zero gravity vector. -/
theorem getMaxPayload_zero_gravity_success_witness :
    (getMaxPayload (constructSolver wModel "arm" ⟨0, 0, 0⟩) ⟨[]⟩
      [0] 0 0).1.1 = true ∧
    (getMaxPayload (constructSolver wModel "arm" ⟨0, 0, 0⟩) ⟨[]⟩
      [0] 0 0).1.2.1 =
      (minLoopAux (capJoint (constructSolver wModel "arm" ⟨0, 0, 0⟩) [0])
        (constructSolver wModel "arm" ⟨0, 0, 0⟩).numJoints 0 dblMax 0).1 / 0 :=
  getMaxPayload_zero_gravity_success wModel "arm" ⟨0, 0, 0⟩
    (constructSolver wModel "arm" ⟨0, 0, 0⟩) ⟨[]⟩ [0] 0 0 rfl (by decide)
    (by decide) (by decide) (by decide) (by decide) (by decide)

end

end DynSolver
